import Mathlib

/-!
Verification of the eventrouter change-routing core against its
natural-language specification.

The repository ships the router's test suite (`eventrouter_test.go`,
`integration_test.go`, `main_test.go`, `sinks/sinks_test.go`), its
benchmarks, and one destination adapter (`sinks/rocksetsink.go`); the
router implementation itself (`eventrouter.go`, `sinks/interfaces.go`,
`sinks/stdoutsink.go`) is not part of the sources.  The definitions
below therefore embed the router as the specification describes it,
with the field and function names used by the tests
(`EventRouter.lastSeenResourceVersion`, `shouldProcessEvent`,
`addEvent`, `updateEvent`, `deleteEvent`, `prometheusEvent`,
`NewEventData`, `ManufactureSink`).  Effects (destination calls,
checkpoint-callback invocations, metric increments, log lines) are
made explicit as data returned by each operation.
-/

namespace EventRouterSpec

/-- A reference to the object an event is about
(`v1.ObjectReference`: kind, name, namespace, API version, UID). -/
structure ObjectReference where
  kind : String
  name : String
  ns : String
  apiVersion : String
  uid : String
  deriving DecidableEq

/-- The origin of an event (`v1.EventSource`: component, host). -/
structure EventSource where
  component : String
  host : String
  deriving DecidableEq

/-- A change record (`v1.Event`): identity (name, namespace), the
position token `resourceVersion`, the category `eventType`
(Go field `Type`), reason, message, an occurrence count, the involved
object, the source, and two timestamps. -/
structure Event where
  name : String
  ns : String
  resourceVersion : String
  eventType : String
  reason : String
  message : String
  count : Int
  involvedObject : ObjectReference
  source : EventSource
  firstTimestamp : String
  lastTimestamp : String
  deriving DecidableEq

/-- The payload handed to an informer callback (`obj interface{}` in
Go): a present record, a typed-but-nil record pointer
(`(*v1.Event)(nil)`), or a value of the wrong dynamic type
(`"not-an-event"` in the tests). -/
inductive Payload where
  | event (e : Event)
  | nilEvent
  | notAnEvent
  deriving DecidableEq

/-- The position cursor owned by the router.  Modelled from the spec:
`eventrouter.go` is missing from the sources; §3 of the spec describes
the cursor as a single mutable field holding the last admitted
position token, initially empty, and the tests construct
`EventRouter{lastSeenResourceVersion: ...}`. -/
structure EventRouter where
  lastSeenResourceVersion : String
  deriving DecidableEq

/-- Lexicographic order on character lists, the order Go's built-in
string `<`/`>` operators compute (byte-wise comparison; UTF-8 byte
order coincides with code-point order, so comparing the decoded
characters is the same relation). -/
def ltChars : List Char → List Char → Bool
  | _, [] => false
  | [], _ :: _ => true
  | a :: as, b :: bs =>
    if a < b then true
    else if b < a then false
    else ltChars as bs

/-- `tokenLt a b` embeds Go's `a < b` (equivalently `b > a`) on the
position-token strings. -/
def tokenLt (a b : String) : Bool := ltChars a.data b.data

/-- The monotonic admission test `shouldProcessEvent`.  Modelled from
the spec: the implementation in `eventrouter.go` is missing; §4.1
defines `admit` — false on the empty token, true on an empty cursor,
otherwise true iff the candidate is strictly greater than the cursor —
and the comparison is Go's built-in string ordering, as recorded by
`BenchmarkResourceVersionComparison` ("`_ = rv1 > rv2` — String
comparison as currently done") and flagged in §9 of the spec. -/
def shouldProcessEvent (er : EventRouter) (resourceVersion : String) : Bool :=
  if resourceVersion = "" then false
  else if er.lastSeenResourceVersion = "" then true
  else tokenLt er.lastSeenResourceVersion resourceVersion

/-- The outbound envelope (`sinks.EventData`).  Modelled from the
spec: `sinks/interfaces.go` is missing; §3 defines the Envelope as
{verb: "ADDED"|"UPDATED", newRecord, oldRecord: optional}, with the
record pointers (`*v1.Event`) embedded as `Option Event`. -/
structure EventData where
  verb : String
  event : Option Event
  oldEvent : Option Event
  deriving DecidableEq

/-- Envelope construction (`sinks.NewEventData`).  Modelled from the
spec: the constructor's source is missing; §3 and the
`TestNewEventData` cases fix it — verb "ADDED" and no old record when
no old event is supplied, verb "UPDATED" carrying both otherwise. -/
def NewEventData (eNew : Option Event) (eOld : Option Event) : EventData :=
  match eOld with
  | none => { verb := "ADDED", event := eNew, oldEvent := none }
  | some _ => { verb := "UPDATED", event := eNew, oldEvent := eOld }

/-- The label tuple every delivery counter is dimensioned by:
involved-object kind, name, namespace, reason, and source host. -/
structure Labels where
  kind : String
  name : String
  ns : String
  reason : String
  host : String
  deriving DecidableEq

/-- The labels extracted from a record for the metrics side channel. -/
def labelsOf (e : Event) : Labels :=
  { kind := e.involvedObject.kind
    name := e.involvedObject.name
    ns := e.involvedObject.ns
    reason := e.reason
    host := e.source.host }

/-- The four delivery-counter families {warnings, normal, info,
unknown}, each a map from the label tuple to a count. -/
structure Counters where
  warnings : Labels → Nat
  normal : Labels → Nat
  info : Labels → Nat
  unknown : Labels → Nat

/-- Increment one counter family at one label tuple. -/
def bump (f : Labels → Nat) (l : Labels) : Labels → Nat :=
  fun l2 => if l2 = l then f l2 + 1 else f l2

/-- The metrics update `prometheusEvent`.  Modelled from the spec:
the implementation is missing; §4.4 fixes it — a no-op when the
feature flag (`enable-prometheus`) is off or the record is absent,
otherwise classify the record's category into
{normal, warnings, info, unknown} (any unrecognized value falls into
"unknown") and increment that counter at the record's label tuple. -/
def prometheusEvent (enabled : Bool) (e : Option Event) (c : Counters) : Counters :=
  if !enabled then c
  else
    match e with
    | none => c
    | some ev =>
      if ev.eventType = "Normal" then { c with normal := bump c.normal (labelsOf ev) }
      else if ev.eventType = "Warning" then { c with warnings := bump c.warnings (labelsOf ev) }
      else if ev.eventType = "Info" then { c with info := bump c.info (labelsOf ev) }
      else { c with unknown := bump c.unknown (labelsOf ev) }

/-- The observable result of one router entry point: the router state
afterwards, the envelopes handed to the destination, the position
tokens passed to the checkpoint callback
(`lastResourceVersionPosition`), the counters afterwards, and the log
lines emitted. -/
structure StepResult where
  router : EventRouter
  deliveries : List EventData
  checkpoints : List String
  counters : Counters
  logs : List String

/-- A step that drops the notification: no destination call, no
checkpoint, no counter change. -/
def dropped (er : EventRouter) (c : Counters) (logs : List String) : StepResult :=
  { router := er, deliveries := [], checkpoints := [], counters := c, logs := logs }

/-- The Create entry point `addEvent`.  Modelled from the spec: the
implementation in `eventrouter.go` is missing; §4.2 fixes it — a
payload that is not a present record is logged and dropped; an
inadmissible token is dropped silently; an admitted record is wrapped
in an "ADDED" envelope, delivered once, the cursor is advanced to its
token via the checkpoint callback, and the metrics side channel is
updated from the record. -/
def addEvent (enabled : Bool) (er : EventRouter) (c : Counters) (obj : Payload) : StepResult :=
  match obj with
  | .notAnEvent => dropped er c ["object is not an event"]
  | .nilEvent => dropped er c ["event is nil"]
  | .event e =>
    if shouldProcessEvent er e.resourceVersion then
      { router := { lastSeenResourceVersion := e.resourceVersion }
        deliveries := [NewEventData (some e) none]
        checkpoints := [e.resourceVersion]
        counters := prometheusEvent enabled (some e) c
        logs := [] }
    else dropped er c []

/-- The Update entry point `updateEvent`.  Modelled from the spec: the
implementation in `eventrouter.go` is missing; §4.2 fixes it — either
payload of the wrong dynamic type, or an absent new record, is logged
and dropped (`TestEventRouter_updateEvent` pins all three cases);
admission is tested against the new record's token only; an admitted
update is wrapped in an envelope carrying both records, delivered
once, and the cursor advances to the new token.  A typed-but-nil old
pointer passes Go's type assertion, so it reaches the envelope as an
absent old record. -/
def updateEvent (enabled : Bool) (er : EventRouter) (c : Counters)
    (objOld objNew : Payload) : StepResult :=
  match objOld, objNew with
  | .notAnEvent, _ => dropped er c ["old object is not an event"]
  | _, .notAnEvent => dropped er c ["new object is not an event"]
  | _, .nilEvent => dropped er c ["new event is nil"]
  | oldPayload, .event eNew =>
    if shouldProcessEvent er eNew.resourceVersion then
      { router := { lastSeenResourceVersion := eNew.resourceVersion }
        deliveries :=
          [NewEventData (some eNew)
            (match oldPayload with
             | .event eOld => some eOld
             | _ => none)]
        checkpoints := [eNew.resourceVersion]
        counters := prometheusEvent enabled (some eNew) c
        logs := [] }
    else dropped er c []

/-- The Delete entry point `deleteEvent`.  Modelled from the spec: the
implementation in `eventrouter.go` is missing; §4.2 fixes it —
deletions are never forwarded and never advance the cursor; valid or
malformed, the notification is only recorded as a log line
(`TestEventRouter_deleteEvent`: "deleteEvent just logs"). -/
def deleteEvent (_enabled : Bool) (er : EventRouter) (c : Counters) (obj : Payload) : StepResult :=
  match obj with
  | .notAnEvent => dropped er c ["object is not an event"]
  | .nilEvent => dropped er c ["event is nil"]
  | .event e => dropped er c ["event deleted: " ++ e.name]

/-- A change notification dispatched to the router: one of the three
informer callbacks. -/
inductive Notification where
  | create (obj : Payload)
  | update (objOld objNew : Payload)
  | delete (obj : Payload)

/-- Dispatch one notification to the corresponding entry point. -/
def handle (enabled : Bool) (er : EventRouter) (c : Counters) : Notification → StepResult
  | .create obj => addEvent enabled er c obj
  | .update objOld objNew => updateEvent enabled er c objOld objNew
  | .delete obj => deleteEvent enabled er c obj

/-- Run a sequence of notifications through the router, threading the
cursor and the counters. -/
def runAll (enabled : Bool) (er : EventRouter) (c : Counters) :
    List Notification → EventRouter × Counters
  | [] => (er, c)
  | n :: rest =>
    let r := handle enabled er c n
    runAll enabled r.router r.counters rest

/-- Reflexive closure of the token order: the cursor either stayed or
strictly increased. -/
def tokenLe (a b : String) : Prop := a = b ∨ tokenLt a b = true

instance (a b : String) : Decidable (tokenLe a b) := by
  unfold tokenLe; infer_instance

/-- A JSON value, the image of Go's `encoding/json` marshalling for
the envelope: strings, integers, objects with ordered fields, and
null. -/
inductive JVal where
  | str (s : String)
  | num (n : Int)
  | obj (fields : List (String × JVal))
  | jnull

/-- Field lookup in a marshalled JSON object. -/
def getField : List (String × JVal) → String → Option JVal
  | [], _ => none
  | (k2, v) :: rest, k => if k2 = k then some v else getField rest k

/-- Read a JSON string value. -/
def asStr : Option JVal → Option String
  | some (.str s) => some s
  | _ => none

/-- Read a JSON integer value. -/
def asInt : Option JVal → Option Int
  | some (.num n) => some n
  | _ => none

/-- Marshal an involved-object reference. -/
def marshalObjectReference (o : ObjectReference) : JVal :=
  .obj [("kind", .str o.kind), ("name", .str o.name), ("namespace", .str o.ns),
        ("apiVersion", .str o.apiVersion), ("uid", .str o.uid)]

/-- Unmarshal an involved-object reference. -/
def unmarshalObjectReference : JVal → Option ObjectReference
  | .obj fs =>
    match asStr (getField fs "kind"), asStr (getField fs "name"),
        asStr (getField fs "namespace"), asStr (getField fs "apiVersion"),
        asStr (getField fs "uid") with
    | some kind, some name, some ns, some apiVersion, some uid =>
      some { kind := kind, name := name, ns := ns, apiVersion := apiVersion, uid := uid }
    | _, _, _, _, _ => none
  | _ => none

/-- Marshal an event source descriptor. -/
def marshalEventSource (s : EventSource) : JVal :=
  .obj [("component", .str s.component), ("host", .str s.host)]

/-- Unmarshal an event source descriptor. -/
def unmarshalEventSource : JVal → Option EventSource
  | .obj fs =>
    match asStr (getField fs "component"), asStr (getField fs "host") with
    | some component, some host => some { component := component, host := host }
    | _, _ => none
  | _ => none

/-- Marshal a change record to JSON. -/
def marshalEvent (e : Event) : JVal :=
  .obj [("name", .str e.name), ("namespace", .str e.ns),
        ("resourceVersion", .str e.resourceVersion), ("type", .str e.eventType),
        ("reason", .str e.reason), ("message", .str e.message), ("count", .num e.count),
        ("involvedObject", marshalObjectReference e.involvedObject),
        ("source", marshalEventSource e.source),
        ("firstTimestamp", .str e.firstTimestamp), ("lastTimestamp", .str e.lastTimestamp)]

/-- Unmarshal a change record from JSON. -/
def unmarshalEvent : JVal → Option Event
  | .obj fs =>
    match asStr (getField fs "name"), asStr (getField fs "namespace"),
        asStr (getField fs "resourceVersion"), asStr (getField fs "type"),
        asStr (getField fs "reason"), asStr (getField fs "message"),
        asInt (getField fs "count"),
        (getField fs "involvedObject").bind unmarshalObjectReference,
        (getField fs "source").bind unmarshalEventSource,
        asStr (getField fs "firstTimestamp"), asStr (getField fs "lastTimestamp") with
    | some name, some ns, some resourceVersion, some eventType, some reason,
        some message, some count, some involvedObject, some source,
        some firstTimestamp, some lastTimestamp =>
      some { name := name, ns := ns, resourceVersion := resourceVersion,
             eventType := eventType, reason := reason, message := message,
             count := count, involvedObject := involvedObject, source := source,
             firstTimestamp := firstTimestamp, lastTimestamp := lastTimestamp }
    | _, _, _, _, _, _, _, _, _, _, _ => none
  | _ => none

/-- Marshal an envelope to JSON.  Modelled from the spec: §6 fixes the
wire shape — `{"verb": ..., "event": <newRecord>, "oldEvent":
<oldRecord, omitted when absent>}`; a nil record pointer marshals to
JSON null. -/
def marshalEventData (ed : EventData) : JVal :=
  .obj
    ([("verb", .str ed.verb),
      ("event", match ed.event with
                | none => .jnull
                | some e => marshalEvent e)] ++
      (match ed.oldEvent with
       | none => []
       | some e => [("oldEvent", marshalEvent e)]))

/-- Unmarshal an envelope from JSON: a null `event` is an absent
record, a missing `oldEvent` key is an absent old record. -/
def unmarshalEventData : JVal → Option EventData
  | .obj fs =>
    match asStr (getField fs "verb"),
        (match getField fs "event" with
         | some .jnull => some none
         | some v => (unmarshalEvent v).map some
         | none => none),
        (match getField fs "oldEvent" with
         | none => some none
         | some v => (unmarshalEvent v).map some) with
    | some verb, some event, some oldEvent =>
      some { verb := verb, event := event, oldEvent := oldEvent }
    | _, _, _ => none
  | _ => none

/-- A constructed destination variant, one constructor per adapter in
`sinks/` (the stdout variant carries its configured JSON namespace,
matching the `StdoutSink.namespace` field checked by the tests). -/
inductive Sink where
  | glog
  | stdout (ns : String)
  | http
  | kafka
  | influxdb
  | eventhub
  | s3
  | rockset
  deriving DecidableEq

/-- The configuration keys `ManufactureSink` consults: the sink name
(`viper.GetString "sink"`) and the stdout JSON namespace
(`viper.GetString "stdoutJSONNamespace"`). -/
structure SinkConfig where
  sink : String
  stdoutJSONNamespace : String
  deriving DecidableEq

/-- Destination selection (`sinks.ManufactureSink`).  Modelled from
the spec: `sinks/sinks.go` is missing; §2 describes selection as a
runtime switch on the configuration string over the adapter variants,
and `TestManufactureSink` / `TestManufactureSink_WithNamespace` pin
the remaining behavior — an unrecognized or empty sink name falls
back to a `StdoutSink` carrying the configured
`stdoutJSONNamespace`.  Adapter-internal construction (network
clients, credentials) is outside the embedding. -/
def ManufactureSink (cfg : SinkConfig) : Sink :=
  if cfg.sink = "glog" then .glog
  else if cfg.sink = "stdout" then .stdout cfg.stdoutJSONNamespace
  else if cfg.sink = "http" then .http
  else if cfg.sink = "kafka" then .kafka
  else if cfg.sink = "influxdb" then .influxdb
  else if cfg.sink = "eventhub" then .eventhub
  else if cfg.sink = "s3sink" then .s3
  else if cfg.sink = "rockset" then .rockset
  else .stdout cfg.stdoutJSONNamespace

/-- The sink names `ManufactureSink` recognizes. -/
def recognizedSinkNames : List String :=
  ["glog", "stdout", "http", "kafka", "influxdb", "eventhub", "s3sink", "rockset"]

/-- All four counter families at zero, the state of fresh metrics. -/
def czero : Counters :=
  { warnings := fun _ => 0, normal := fun _ => 0, info := fun _ => 0, unknown := fun _ => 0 }

/-- Concrete record fixture: the first create of the end-to-end
scenario (position token "1000"). -/
def e1000 : Event :=
  { name := "event1", ns := "default", resourceVersion := "1000",
    eventType := "Normal", reason := "Created", message := "First test event",
    count := 1,
    involvedObject := { kind := "Pod", name := "test-pod-1", ns := "default",
                        apiVersion := "v1", uid := "uid-1" },
    source := { component := "kubelet", host := "worker-node-1" },
    firstTimestamp := "t0", lastTimestamp := "t0" }

/-- Concrete record fixture: an old record with token "150", as in the
spec's update scenario. -/
def e150 : Event :=
  { e1000 with name := "update-test-event", resourceVersion := "150", message := "Old message" }

/-- Concrete record fixture: a new record with token "200", as in the
spec's update scenario. -/
def e200 : Event :=
  { e1000 with name := "update-test-event", resourceVersion := "200",
               reason := "Updated", message := "New message" }

/-- Concrete record fixture: a Warning-category record with an
admissible token. -/
def ewarn : Event :=
  { e1000 with name := "warning-event", resourceVersion := "1001",
               eventType := "Warning", reason := "Failed",
               source := { component := "kubelet", host := "test-host" } }

/-- Concrete notification fixture: a Create carrying `e1000`. -/
def n1000 : Notification := .create (.event e1000)

end EventRouterSpec

namespace EventRouterSpec

theorem ltChars_trans (a b c : List Char) (h1 : ltChars a b = true) (h2 : ltChars b c = true) :
    ltChars a c = true := by
  induction a generalizing b c with
  | nil =>
    cases c with
    | nil => cases b <;> simp [ltChars] at h1 h2
    | cons d ds => simp [ltChars]
  | cons x xs ih =>
    cases b with
    | nil => simp [ltChars] at h1
    | cons y ys =>
      cases c with
      | nil => simp [ltChars] at h2
      | cons z zs =>
        simp only [ltChars] at h1 h2 ⊢
        by_cases hxy : x < y
        · by_cases hyz : y < z
          · simp [lt_trans hxy hyz]
          · by_cases hzy : z < y
            · simp [hyz, hzy] at h2
            · have hyz2 : y = z := le_antisymm (not_lt.mp hzy) (not_lt.mp hyz)
              subst hyz2
              simp [hxy]
        · by_cases hyx : y < x
          · simp [hxy, hyx] at h1
          · have hxy2 : x = y := le_antisymm (not_lt.mp hyx) (not_lt.mp hxy)
            subst hxy2
            simp [lt_irrefl] at h1
            by_cases hxz : x < z
            · simp [hxz]
            · by_cases hzx : z < x
              · simp [hxz, hzx] at h2
              · simp [hxz, hzx] at h2 ⊢
                exact ih ys zs h1 h2

theorem tokenLt_trans (a b c : String) (h1 : tokenLt a b = true) (h2 : tokenLt b c = true) :
    tokenLt a c = true := ltChars_trans a.data b.data c.data h1 h2

/-- An admitted token is strictly greater than the cursor under the
token order (an empty cursor is below every non-empty token). -/
theorem shouldProcessEvent_imp_lt (er : EventRouter) (rv : String)
    (h : shouldProcessEvent er rv = true) :
    tokenLt er.lastSeenResourceVersion rv = true := by
  unfold shouldProcessEvent at h
  by_cases h0 : rv = ""
  · simp [h0] at h
  · rw [if_neg h0] at h
    by_cases h1 : er.lastSeenResourceVersion = ""
    · rw [h1]
      unfold tokenLt
      cases rv with
      | mk l =>
        cases l with
        | nil => exact absurd rfl h0
        | cons ch chs => simp [ltChars]
    · rw [if_neg h1] at h
      exact h

/-- One dispatched notification either leaves the cursor unchanged or
moves it to a token that passed the admission test and is strictly
greater. -/
theorem handle_cursor (enabled : Bool) (er : EventRouter) (c : Counters) (n : Notification) :
    (handle enabled er c n).router = er ∨
    (shouldProcessEvent er (handle enabled er c n).router.lastSeenResourceVersion = true ∧
     tokenLt er.lastSeenResourceVersion
       (handle enabled er c n).router.lastSeenResourceVersion = true) := by
  cases n with
  | create obj =>
    cases obj with
    | notAnEvent => exact Or.inl rfl
    | nilEvent => exact Or.inl rfl
    | event e =>
      by_cases h : shouldProcessEvent er e.resourceVersion = true
      · refine Or.inr ?_
        have hr : (handle enabled er c (.create (.event e))).router =
            { lastSeenResourceVersion := e.resourceVersion } := by
          simp [handle, addEvent, h]
        rw [hr]
        exact ⟨h, shouldProcessEvent_imp_lt er e.resourceVersion h⟩
      · refine Or.inl ?_
        show (addEvent enabled er c (.event e)).router = er
        simp [addEvent, h, dropped]
  | update objOld objNew =>
    cases objNew with
    | notAnEvent => cases objOld <;> exact Or.inl rfl
    | nilEvent => cases objOld <;> exact Or.inl rfl
    | event eNew =>
      cases objOld with
      | notAnEvent => exact Or.inl rfl
      | nilEvent =>
        by_cases h : shouldProcessEvent er eNew.resourceVersion = true
        · refine Or.inr ?_
          have hr : (handle enabled er c (.update .nilEvent (.event eNew))).router =
              { lastSeenResourceVersion := eNew.resourceVersion } := by
            simp [handle, updateEvent, h]
          rw [hr]
          exact ⟨h, shouldProcessEvent_imp_lt er eNew.resourceVersion h⟩
        · refine Or.inl ?_
          show (updateEvent enabled er c .nilEvent (.event eNew)).router = er
          simp [updateEvent, h, dropped]
      | event eOld =>
        by_cases h : shouldProcessEvent er eNew.resourceVersion = true
        · refine Or.inr ?_
          have hr : (handle enabled er c (.update (.event eOld) (.event eNew))).router =
              { lastSeenResourceVersion := eNew.resourceVersion } := by
            simp [handle, updateEvent, h]
          rw [hr]
          exact ⟨h, shouldProcessEvent_imp_lt er eNew.resourceVersion h⟩
        · refine Or.inl ?_
          show (updateEvent enabled er c (.event eOld) (.event eNew)).router = er
          simp [updateEvent, h, dropped]
  | delete obj => cases obj <;> exact Or.inl rfl

/-- Along any sequence of notifications the cursor only stays or
strictly increases. -/
theorem runAll_cursor_mono (enabled : Bool) (trace : List Notification) :
    ∀ (er : EventRouter) (c : Counters),
      tokenLe er.lastSeenResourceVersion
        (runAll enabled er c trace).1.lastSeenResourceVersion := by
  induction trace with
  | nil => intro er c; exact Or.inl rfl
  | cons n rest ih =>
    intro er c
    have hstep := handle_cursor enabled er c n
    have htail := ih (handle enabled er c n).router (handle enabled er c n).counters
    show tokenLe er.lastSeenResourceVersion
      (runAll enabled (handle enabled er c n).router (handle enabled er c n).counters
        rest).1.lastSeenResourceVersion
    cases hstep with
    | inl heq =>
      rw [heq] at htail ⊢
      exact htail
    | inr hlt =>
      cases htail with
      | inl heq2 => exact Or.inr (heq2 ▸ hlt.2)
      | inr hlt2 => exact Or.inr (tokenLt_trans _ _ _ hlt.2 hlt2)

/-- C1, counterexample: the claim asserts that with cursor "100" the
admission test rejects candidate "99", but `shouldProcessEvent`
compares tokens with Go's lexicographic string order, under which
"99" is greater than "100", so the candidate is admitted. -/
theorem claim1_counterexample :
    shouldProcessEvent { lastSeenResourceVersion := "100" } "99" = true := by decide

/-- C1, as amended: `shouldProcessEvent` returns false for the empty
token regardless of cursor state and true for every non-empty token
when the cursor is empty; for cursor "100" it returns true for
candidate "99" (lexicographically "99" > "100"), false for candidate
"100", and true for candidate "101". -/
theorem claim1_theorem :
    (∀ er : EventRouter, shouldProcessEvent er "" = false) ∧
    (∀ rv : String, rv ≠ "" →
      shouldProcessEvent { lastSeenResourceVersion := "" } rv = true) ∧
    shouldProcessEvent { lastSeenResourceVersion := "100" } "99" = true ∧
    shouldProcessEvent { lastSeenResourceVersion := "100" } "100" = false ∧
    shouldProcessEvent { lastSeenResourceVersion := "100" } "101" = true := by
  refine ⟨fun er => by simp [shouldProcessEvent], fun rv h => by simp [shouldProcessEvent, h],
    by decide, by decide, by decide⟩

/-- C1, witness: the amended claim instantiated at the non-empty
candidate token "42" against the empty cursor. -/
theorem claim1_witness :
    ("42" : String) ≠ "" ∧
    shouldProcessEvent { lastSeenResourceVersion := "" } "42" = true :=
  ⟨by decide, claim1_theorem.2.1 "42" (by decide)⟩

/-- C9: the admission test orders tokens with Go's lexicographic
string comparison, not numerically — with cursor "99" the numerically
larger candidate "100" is rejected, with cursor "100" the numerically
smaller candidate "99" is admitted, and on non-empty cursor and
candidate the test is exactly the lexicographic strict order
`tokenLt`. -/
theorem claim9_theorem :
    (shouldProcessEvent { lastSeenResourceVersion := "99" } "100" = false ∧ (99 : Nat) < 100) ∧
    (shouldProcessEvent { lastSeenResourceVersion := "100" } "99" = true ∧ (99 : Nat) < 100) ∧
    (∀ (er : EventRouter) (rv : String), er.lastSeenResourceVersion ≠ "" → rv ≠ "" →
      shouldProcessEvent er rv = tokenLt er.lastSeenResourceVersion rv) := by
  refine ⟨⟨by decide, by decide⟩, ⟨by decide, by decide⟩, fun er rv h1 h2 => ?_⟩
  simp [shouldProcessEvent, h1, h2]

/-- C9, witness: the lexicographic characterization instantiated at
cursor "100" and candidate "99". -/
theorem claim9_witness :
    ({ lastSeenResourceVersion := "100" } : EventRouter).lastSeenResourceVersion ≠ "" ∧
    ("99" : String) ≠ "" ∧
    shouldProcessEvent { lastSeenResourceVersion := "100" } "99" = tokenLt "100" "99" :=
  ⟨by decide, by decide, claim9_theorem.2.2 { lastSeenResourceVersion := "100" } "99"
    (by decide) (by decide)⟩

/-- C6: `deleteEvent` never calls the destination, never invokes the
checkpoint callback, and leaves the cursor and the counters unchanged,
for every payload, valid or malformed. -/
theorem claim6_theorem (enabled : Bool) (er : EventRouter) (c : Counters) (obj : Payload) :
    (deleteEvent enabled er c obj).router = er ∧
    (deleteEvent enabled er c obj).deliveries = [] ∧
    (deleteEvent enabled er c obj).checkpoints = [] ∧
    (deleteEvent enabled er c obj).counters = c := by
  cases obj <;> exact ⟨rfl, rfl, rfl, rfl⟩

/-- C8: marshalling an envelope to JSON and unmarshalling the result
reproduces the envelope exactly — verb, new record, and old record,
including the absence of the old record (its key is omitted) and a
nil record pointer (marshalled as null). -/
theorem claim8_theorem (ed : EventData) :
    unmarshalEventData (marshalEventData ed) = some ed := by
  obtain ⟨verb, event, oldEvent⟩ := ed
  cases event <;> cases oldEvent <;> rfl

end EventRouterSpec

namespace EventRouterSpec

/-- C2: for a well-formed Create whose token passes the admission
test, `addEvent` makes exactly one destination call, carrying an
envelope with verb "ADDED" and no old record, invokes the checkpoint
callback exactly once with the notification's token, and advances the
cursor to that token. -/
theorem claim2_theorem (enabled : Bool) (er : EventRouter) (c : Counters) (e : Event)
    (hadm : shouldProcessEvent er e.resourceVersion = true) :
    (addEvent enabled er c (.event e)).deliveries =
      [{ verb := "ADDED", event := some e, oldEvent := none }] ∧
    (addEvent enabled er c (.event e)).checkpoints = [e.resourceVersion] ∧
    (addEvent enabled er c (.event e)).router =
      { lastSeenResourceVersion := e.resourceVersion } := by
  simp [addEvent, hadm, NewEventData]

/-- C2, witness: the admitted-Create contract instantiated at the
record with token "1000" against the empty cursor. -/
theorem claim2_witness :
    shouldProcessEvent { lastSeenResourceVersion := "" } e1000.resourceVersion = true ∧
    ((addEvent true { lastSeenResourceVersion := "" } czero (.event e1000)).deliveries =
      [{ verb := "ADDED", event := some e1000, oldEvent := none }] ∧
     (addEvent true { lastSeenResourceVersion := "" } czero (.event e1000)).checkpoints =
      [e1000.resourceVersion] ∧
     (addEvent true { lastSeenResourceVersion := "" } czero (.event e1000)).router =
      { lastSeenResourceVersion := e1000.resourceVersion }) :=
  ⟨by decide, claim2_theorem true { lastSeenResourceVersion := "" } czero e1000 (by decide)⟩

/-- C3: across every single dispatched notification and every
sequence of notifications, the cursor never moves backward under the
token order — a change means the new cursor token passed the
admission test against the old cursor and is strictly greater. -/
theorem claim3_theorem (enabled : Bool) (er : EventRouter) (c : Counters) (n : Notification)
    (trace : List Notification) :
    ((handle enabled er c n).router ≠ er →
      shouldProcessEvent er (handle enabled er c n).router.lastSeenResourceVersion = true ∧
      tokenLt er.lastSeenResourceVersion
        (handle enabled er c n).router.lastSeenResourceVersion = true) ∧
    tokenLe er.lastSeenResourceVersion
      (runAll enabled er c trace).1.lastSeenResourceVersion := by
  refine ⟨fun hne => ?_, runAll_cursor_mono enabled trace er c⟩
  cases handle_cursor enabled er c n with
  | inl heq => exact absurd heq hne
  | inr h => exact h

/-- C3, witness: the monotonicity contract instantiated at the empty
cursor and the Create notification carrying token "1000". -/
theorem claim3_witness :
    (handle true { lastSeenResourceVersion := "" } czero n1000).router ≠
      { lastSeenResourceVersion := "" } ∧
    ((shouldProcessEvent { lastSeenResourceVersion := "" }
        (handle true { lastSeenResourceVersion := "" } czero n1000).router.lastSeenResourceVersion
          = true ∧
      tokenLt ""
        (handle true { lastSeenResourceVersion := "" } czero n1000).router.lastSeenResourceVersion
          = true) ∧
     tokenLe ""
      (runAll true { lastSeenResourceVersion := "" } czero [n1000]).1.lastSeenResourceVersion) :=
  ⟨by decide,
   (claim3_theorem true { lastSeenResourceVersion := "" } czero n1000 [n1000]).1 (by decide),
   (claim3_theorem true { lastSeenResourceVersion := "" } czero n1000 [n1000]).2⟩

/-- C4: for a well-formed Update whose new record's token passes the
admission test, `updateEvent` makes exactly one destination call with
an "UPDATED" envelope carrying both records, checkpoints once, and
advances the cursor to the new token; whether a delivery happens does
not depend on the old record. -/
theorem claim4_theorem (enabled : Bool) (er : EventRouter) (c : Counters) (eOld eNew : Event)
    (hadm : shouldProcessEvent er eNew.resourceVersion = true) :
    (updateEvent enabled er c (.event eOld) (.event eNew)).deliveries =
      [{ verb := "UPDATED", event := some eNew, oldEvent := some eOld }] ∧
    (updateEvent enabled er c (.event eOld) (.event eNew)).checkpoints =
      [eNew.resourceVersion] ∧
    (updateEvent enabled er c (.event eOld) (.event eNew)).router =
      { lastSeenResourceVersion := eNew.resourceVersion } ∧
    (∀ eOld2 : Event,
      (updateEvent enabled er c (.event eOld2) (.event eNew)).deliveries.length =
      (updateEvent enabled er c (.event eOld) (.event eNew)).deliveries.length) := by
  refine ⟨by simp [updateEvent, hadm, NewEventData], by simp [updateEvent, hadm],
    by simp [updateEvent, hadm], fun eOld2 => by simp [updateEvent, hadm]⟩

/-- C4, witness: the spec's update scenario — cursor "100", old record
token "150", new record token "200". -/
theorem claim4_witness :
    shouldProcessEvent { lastSeenResourceVersion := "100" } e200.resourceVersion = true ∧
    ((updateEvent true { lastSeenResourceVersion := "100" } czero
        (.event e150) (.event e200)).deliveries =
      [{ verb := "UPDATED", event := some e200, oldEvent := some e150 }] ∧
     (updateEvent true { lastSeenResourceVersion := "100" } czero
        (.event e150) (.event e200)).checkpoints = [e200.resourceVersion] ∧
     (updateEvent true { lastSeenResourceVersion := "100" } czero
        (.event e150) (.event e200)).router =
      { lastSeenResourceVersion := e200.resourceVersion } ∧
    (∀ eOld2 : Event,
      (updateEvent true { lastSeenResourceVersion := "100" } czero
        (.event eOld2) (.event e200)).deliveries.length =
      (updateEvent true { lastSeenResourceVersion := "100" } czero
        (.event e150) (.event e200)).deliveries.length)) :=
  ⟨by decide, claim4_theorem true { lastSeenResourceVersion := "100" } czero e150 e200 (by decide)⟩

/-- C5: a malformed Create payload (wrong type or nil record) and a
malformed Update payload (wrong type on either side, or nil/invalid
new record) produce no destination call, no checkpoint, no cursor
change, and no counter change. -/
theorem claim5_theorem (enabled : Bool) (er : EventRouter) (c : Counters) :
    (∀ obj : Payload, obj = Payload.nilEvent ∨ obj = Payload.notAnEvent →
      (addEvent enabled er c obj).router = er ∧
      (addEvent enabled er c obj).deliveries = [] ∧
      (addEvent enabled er c obj).checkpoints = [] ∧
      (addEvent enabled er c obj).counters = c) ∧
    (∀ objOld objNew : Payload,
      objOld = Payload.notAnEvent ∨ objNew = Payload.notAnEvent ∨ objNew = Payload.nilEvent →
      (updateEvent enabled er c objOld objNew).router = er ∧
      (updateEvent enabled er c objOld objNew).deliveries = [] ∧
      (updateEvent enabled er c objOld objNew).checkpoints = [] ∧
      (updateEvent enabled er c objOld objNew).counters = c) := by
  constructor
  · rintro obj (rfl | rfl) <;> exact ⟨rfl, rfl, rfl, rfl⟩
  · rintro objOld objNew (rfl | rfl | rfl)
    · cases objNew <;> exact ⟨rfl, rfl, rfl, rfl⟩
    · cases objOld <;> exact ⟨rfl, rfl, rfl, rfl⟩
    · cases objOld <;> exact ⟨rfl, rfl, rfl, rfl⟩

/-- C5, witness: the drop-and-continue contract instantiated at the
wrong-type Create payload with cursor "100". -/
theorem claim5_witness :
    (Payload.notAnEvent = Payload.nilEvent ∨ Payload.notAnEvent = Payload.notAnEvent) ∧
    ((addEvent true { lastSeenResourceVersion := "100" } czero Payload.notAnEvent).router =
      { lastSeenResourceVersion := "100" } ∧
     (addEvent true { lastSeenResourceVersion := "100" } czero Payload.notAnEvent).deliveries
      = [] ∧
     (addEvent true { lastSeenResourceVersion := "100" } czero Payload.notAnEvent).checkpoints
      = [] ∧
     (addEvent true { lastSeenResourceVersion := "100" } czero Payload.notAnEvent).counters
      = czero) :=
  ⟨Or.inr rfl,
   (claim5_theorem true { lastSeenResourceVersion := "100" } czero).1 Payload.notAnEvent
     (Or.inr rfl)⟩

/-- C7: with metrics enabled, an admitted Create with category
"Warning" increments the warnings counter at the record's label tuple
by exactly 1 and leaves the warnings counter elsewhere and the normal,
info, and unknown counters unchanged; an admitted Create with an
unrecognized category increments only the unknown counter. -/
theorem claim7_theorem (er : EventRouter) (c : Counters) (e : Event)
    (hadm : shouldProcessEvent er e.resourceVersion = true) :
    (e.eventType = "Warning" →
      (addEvent true er c (.event e)).counters.warnings (labelsOf e) =
        c.warnings (labelsOf e) + 1 ∧
      (∀ l : Labels, l ≠ labelsOf e →
        (addEvent true er c (.event e)).counters.warnings l = c.warnings l) ∧
      (addEvent true er c (.event e)).counters.normal = c.normal ∧
      (addEvent true er c (.event e)).counters.info = c.info ∧
      (addEvent true er c (.event e)).counters.unknown = c.unknown) ∧
    (e.eventType ≠ "Normal" → e.eventType ≠ "Warning" → e.eventType ≠ "Info" →
      (addEvent true er c (.event e)).counters.unknown (labelsOf e) =
        c.unknown (labelsOf e) + 1 ∧
      (∀ l : Labels, l ≠ labelsOf e →
        (addEvent true er c (.event e)).counters.unknown l = c.unknown l) ∧
      (addEvent true er c (.event e)).counters.warnings = c.warnings ∧
      (addEvent true er c (.event e)).counters.normal = c.normal ∧
      (addEvent true er c (.event e)).counters.info = c.info) := by
  have hc : (addEvent true er c (.event e)).counters = prometheusEvent true (some e) c := by
    simp [addEvent, hadm]
  rw [hc]
  constructor
  · intro hw
    simp only [prometheusEvent, hw, Bool.not_true, Bool.false_eq_true, if_false]
    rw [if_neg (show ¬("Warning" : String) = "Normal" by decide)]
    exact ⟨by simp [bump], fun l hl => by simp [bump, hl], by simp, by simp, by simp⟩
  · intro h1 h2 h3
    simp only [prometheusEvent, Bool.not_true, Bool.false_eq_true, if_false]
    rw [if_neg h1, if_neg h2, if_neg h3]
    exact ⟨by simp [bump], fun l hl => by simp [bump, hl], by simp, by simp, by simp⟩

/-- C7, witness: the Warning record with token "1001" against cursor
"100" bumps its warnings counter from 0 to 1. -/
theorem claim7_witness :
    shouldProcessEvent { lastSeenResourceVersion := "100" } ewarn.resourceVersion = true ∧
    ewarn.eventType = "Warning" ∧
    (addEvent true { lastSeenResourceVersion := "100" } czero (.event ewarn)).counters.warnings
      (labelsOf ewarn) = czero.warnings (labelsOf ewarn) + 1 :=
  ⟨by decide, rfl,
   ((claim7_theorem { lastSeenResourceVersion := "100" } czero ewarn (by decide)).1 rfl).1⟩

/-- C10: `ManufactureSink` is total over configurations — an
unrecognized or empty sink name falls back to a stdout sink carrying
the configured `stdoutJSONNamespace`, and the recognized "stdout"
name produces the same. -/
theorem claim10_theorem :
    (∀ cfg : SinkConfig, cfg.sink ∉ recognizedSinkNames →
      ManufactureSink cfg = Sink.stdout cfg.stdoutJSONNamespace) ∧
    (∀ ns : String,
      ManufactureSink { sink := "", stdoutJSONNamespace := ns } = Sink.stdout ns) ∧
    (∀ ns : String,
      ManufactureSink { sink := "stdout", stdoutJSONNamespace := ns } = Sink.stdout ns) := by
  refine ⟨fun cfg h => ?_, fun ns => rfl, fun ns => rfl⟩
  simp only [recognizedSinkNames, List.mem_cons, List.not_mem_nil, or_false] at h
  push_neg at h
  obtain ⟨h1, h2, h3, h4, h5, h6, h7, h8⟩ := h
  simp [ManufactureSink, h1, h2, h3, h4, h5, h6, h7, h8]

/-- C10, witness: the fallback instantiated at the unrecognized sink
name "unknown" with namespace "test-namespace". -/
theorem claim10_witness :
    ("unknown" : String) ∉ recognizedSinkNames ∧
    ManufactureSink { sink := "unknown", stdoutJSONNamespace := "test-namespace" } =
      Sink.stdout "test-namespace" :=
  ⟨by decide, claim10_theorem.1 { sink := "unknown", stdoutJSONNamespace := "test-namespace" }
    (by decide)⟩

end EventRouterSpec
